import Mathlib

/-!
Verification of `src/custom_js_glue/numrs_glue.js`, a single JavaScript
function `asarray(data)` that probes the nesting depth of its argument along
the leftmost-element chain (`data[0]`, `data[0][0]`, `data[0][0][0]`,
`data[0][0][0][0]`), checking `typeof(...) === 'number'` at each level, and
dispatches to one of four external constructors `asarray1d` .. `asarray4d`.

We shallowly embed the fragment of JavaScript semantics the function
exercises: values are numbers, strings (modelled as character lists),
booleans, `undefined`, `null` and arrays; index-by-`0` access yields
`undefined` on numbers, booleans and empty arrays/strings, the first
character (as a one-character string) on non-empty strings, the first
element on non-empty arrays, and throws a `TypeError` on `undefined` and
`null`.  `typeof` is total and never throws.
-/

namespace NumrsGlue

/-- A JavaScript value, restricted to the shapes `asarray` can observe.
Numbers carry an `Int` payload (the numeric value is never inspected beyond
`typeof`); strings are modelled as their character lists so that
index-by-`0` access can be computed structurally. -/
inductive JSVal where
  | num (n : Int)
  | str (s : List Char)
  | bool (b : Bool)
  | undef
  | null
  | arr (elems : List JSVal)

/-- The only error the probed operations can signal: a `TypeError` from
indexing into `undefined` or `null`. -/
inductive JSError where
  | typeError
deriving DecidableEq, Repr

/-- JavaScript `typeof`, restricted to the modelled values.  Arrays and
`null` both report `"object"`, exactly as in JavaScript. -/
def typeofJS : JSVal → String
  | .num _ => "number"
  | .str _ => "string"
  | .bool _ => "boolean"
  | .undef => "undefined"
  | .null => "object"
  | .arr _ => "object"

/-- JavaScript index-by-`0` access `v[0]`: property lookup `"0"` on a
number or boolean (after boxing) yields `undefined`; on a string it yields
the first character as a one-character string, or `undefined` when empty;
on an array it yields the first element, or `undefined` when empty; on
`undefined` or `null` it throws a `TypeError`. -/
def getIndex0 : JSVal → Except JSError JSVal
  | .num _ => .ok .undef
  | .bool _ => .ok .undef
  | .str [] => .ok .undef
  | .str (c :: _) => .ok (.str [c])
  | .undef => .error .typeError
  | .null => .error .typeError
  | .arr [] => .ok .undef
  | .arr (v :: _) => .ok v

/-- The observable outcome of a call to `asarray`: either some rank
constructor `asarrayNd` is invoked with argument `arg` (and `asarray`
returns that constructor's result unchanged, so the call is fully described
by the pair of rank and argument), or the branch ladder is exhausted and
the function implicitly returns `undefined`, or a probe throws. -/
inductive AsarrayResult where
  | dispatch (rank : Nat) (arg : JSVal)
  | noDispatch
  | throw (e : JSError)

/-- Shallow embedding of the source function

```js
export function asarray(data) {
    if (typeof(data[0]) === 'number') {
        return asarray1d(data);
    } else if (typeof(data[0][0]) === 'number') {
        return asarray2d(data);
    } else if (typeof(data[0][0][0]) === 'number') {
        return asarray3d(data);
    } else if (typeof(data[0][0][0][0]) === 'number') {
        return asarray4d(data);
    }
}
```

Each condition re-reads `data[0]`, `data[0][0]`, ... ; since the probed
reads are pure, evaluating each prefix once is observationally identical.
A thrown `TypeError` from any probe propagates as `.throw`. -/
def asarray (data : JSVal) : AsarrayResult :=
  match getIndex0 data with
  | .error e => .throw e
  | .ok d1 =>
    if typeofJS d1 = "number" then .dispatch 1 data
    else match getIndex0 d1 with
      | .error e => .throw e
      | .ok d2 =>
        if typeofJS d2 = "number" then .dispatch 2 data
        else match getIndex0 d2 with
          | .error e => .throw e
          | .ok d3 =>
            if typeofJS d3 = "number" then .dispatch 3 data
            else match getIndex0 d3 with
              | .error e => .throw e
              | .ok d4 =>
                if typeofJS d4 = "number" then .dispatch 4 data
                else .noDispatch

/-- `true` exactly on primitive numbers (the values `typeof` reports as
`"number"`). -/
def isNum : JSVal → Bool
  | .num _ => true
  | _ => false

/-- `isNumSeq d v` holds when `v` is a well-formed `d`-level nested numeric
sequence: at depth `0` a primitive number, at depth `d+1` a non-empty array
all of whose elements are well-formed `d`-level sequences. -/
def isNumSeq : Nat → JSVal → Bool
  | 0, v => isNum v
  | d + 1, .arr xs => !xs.isEmpty && xs.all (isNumSeq d)
  | _ + 1, _ => false

/-- The leftmost-element probe chain: `probeChain v k` is the value of
`v[0][0]...[0]` (`k` indexings), with a thrown `TypeError` propagated. -/
def probeChain (v : JSVal) : Nat → Except JSError JSVal
  | 0 => .ok v
  | k + 1 =>
    match probeChain v k with
    | .error e => .error e
    | .ok w => getIndex0 w

/-- Which constructor a call invoked: `some r` when the rank-`r` constructor
was called, `none` when no constructor was invoked (fall-through or throw). -/
def dispatchRank : AsarrayResult → Option Nat
  | .dispatch r _ => some r
  | _ => none

/-- Second definition, following the specification's own words (§4.1
"Probe algorithm"): probe `data[0]`, `data[0][0]`, `data[0][0][0]`,
`data[0][0][0][0]` in that fixed order, select the first level whose
leftmost element is a primitive number as the rank, dispatch to that rank's
constructor with `data` as sole argument, and otherwise produce no defined
result; probe errors propagate.  To be compared against `asarray`. -/
def specRankDispatch (data : JSVal) : AsarrayResult :=
  match probeChain data 1 with
  | .error e => .throw e
  | .ok w1 =>
    if typeofJS w1 = "number" then .dispatch 1 data
    else
      match probeChain data 2 with
      | .error e => .throw e
      | .ok w2 =>
        if typeofJS w2 = "number" then .dispatch 2 data
        else
          match probeChain data 3 with
          | .error e => .throw e
          | .ok w3 =>
            if typeofJS w3 = "number" then .dispatch 3 data
            else
              match probeChain data 4 with
              | .error e => .throw e
              | .ok w4 =>
                if typeofJS w4 = "number" then .dispatch 4 data
                else .noDispatch

/-- The observation `asarray` can make of one probe level: the probe threw,
yielded a primitive number, or yielded anything else. -/
inductive ProbeObs where
  | err
  | isnum
  | other
deriving DecidableEq, Repr

/-- The observation of the `k`-fold leftmost probe of `v`. -/
def probeObs (v : JSVal) (k : Nat) : ProbeObs :=
  match probeChain v k with
  | .error _ => .err
  | .ok w => if typeofJS w = "number" then .isnum else .other

/-- The dispatch rank determined by a 4-tuple of probe observations: the
first probed level observed to hold a primitive number gives the rank; an
observed throw, or exhaustion of the four levels, gives no dispatch. -/
def obsToRank : ProbeObs → ProbeObs → ProbeObs → ProbeObs → Option Nat
  | .isnum, _, _, _ => some 1
  | .err, _, _, _ => none
  | .other, .isnum, _, _ => some 2
  | .other, .err, _, _ => none
  | .other, .other, .isnum, _ => some 3
  | .other, .other, .err, _ => none
  | .other, .other, .other, .isnum => some 4
  | .other, .other, .other, .err => none
  | .other, .other, .other, .other => none

section Lemmas

lemma typeof_eq_number_iff (v : JSVal) : typeofJS v = "number" ↔ isNum v = true := by
  cases v <;> simp [typeofJS, isNum]

lemma probeChain_succ (v : JSVal) (k : Nat) :
    probeChain v (k + 1) =
      match probeChain v k with
      | .error e => .error e
      | .ok w => getIndex0 w := rfl

lemma dispatchRank_asarray_eq_obs (v : JSVal) :
    dispatchRank (asarray v) =
      obsToRank (probeObs v 1) (probeObs v 2) (probeObs v 3) (probeObs v 4) := by
  have c1 : probeChain v 1 = getIndex0 v := rfl
  unfold asarray
  cases h1 : getIndex0 v with
  | error e =>
    have o1 : probeObs v 1 = .err := by unfold probeObs; rw [c1, h1]
    rw [o1]
    rfl
  | ok d1 =>
    dsimp only
    have c2 : probeChain v 2 = getIndex0 d1 := by
      rw [probeChain_succ, c1, h1]
    by_cases t1 : typeofJS d1 = "number"
    · have o1 : probeObs v 1 = .isnum := by
        unfold probeObs; rw [c1, h1]; simp [t1]
      rw [if_pos t1, o1]
      rfl
    · have o1 : probeObs v 1 = .other := by
        unfold probeObs; rw [c1, h1]; simp [t1]
      rw [if_neg t1, o1]
      cases h2 : getIndex0 d1 with
      | error e =>
        have o2 : probeObs v 2 = .err := by unfold probeObs; rw [c2, h2]
        rw [o2]
        rfl
      | ok d2 =>
        dsimp only
        have c3 : probeChain v 3 = getIndex0 d2 := by
          rw [probeChain_succ, c2, h2]
        by_cases t2 : typeofJS d2 = "number"
        · have o2 : probeObs v 2 = .isnum := by
            unfold probeObs; rw [c2, h2]; simp [t2]
          rw [if_pos t2, o2]
          rfl
        · have o2 : probeObs v 2 = .other := by
            unfold probeObs; rw [c2, h2]; simp [t2]
          rw [if_neg t2, o2]
          cases h3 : getIndex0 d2 with
          | error e =>
            have o3 : probeObs v 3 = .err := by unfold probeObs; rw [c3, h3]
            rw [o3]
            rfl
          | ok d3 =>
            dsimp only
            have c4 : probeChain v 4 = getIndex0 d3 := by
              rw [probeChain_succ, c3, h3]
            by_cases t3 : typeofJS d3 = "number"
            · have o3 : probeObs v 3 = .isnum := by
                unfold probeObs; rw [c3, h3]; simp [t3]
              rw [if_pos t3, o3]
              rfl
            · have o3 : probeObs v 3 = .other := by
                unfold probeObs; rw [c3, h3]; simp [t3]
              rw [if_neg t3, o3]
              cases h4 : getIndex0 d3 with
              | error e =>
                have o4 : probeObs v 4 = .err := by unfold probeObs; rw [c4, h4]
                rw [o4]
                rfl
              | ok d4 =>
                dsimp only
                by_cases t4 : typeofJS d4 = "number"
                · have o4 : probeObs v 4 = .isnum := by
                    unfold probeObs; rw [c4, h4]; simp [t4]
                  rw [if_pos t4, o4]
                  rfl
                · have o4 : probeObs v 4 = .other := by
                    unfold probeObs; rw [c4, h4]; simp [t4]
                  rw [if_neg t4, o4]
                  rfl

lemma isNum_exists {v : JSVal} (h : isNum v = true) : ∃ n, v = .num n := by
  cases v <;> simp [isNum] at h ⊢

lemma isNumSeq_succ_elim {d : Nat} {v : JSVal} (h : isNumSeq (d + 1) v = true) :
    ∃ x xs, v = .arr (x :: xs) ∧ isNumSeq d x = true := by
  cases v with
  | arr elems =>
    cases elems with
    | nil => simp [isNumSeq] at h
    | cons x xs =>
      refine ⟨x, xs, rfl, ?_⟩
      simp [isNumSeq] at h
      exact h.1
  | num n => simp [isNumSeq] at h
  | str s => simp [isNumSeq] at h
  | bool b => simp [isNumSeq] at h
  | undef => simp [isNumSeq] at h
  | null => simp [isNumSeq] at h

end Lemmas

/-- C1: for every flat sequence of numbers `S` of length ≥ 1 (every element
a primitive number), `asarray(S)` dispatches to the rank-1 constructor
`asarray1d` with argument `S` unchanged and returns its result. -/
theorem asarray_flat_dispatches_rank1 (xs : List JSVal)
    (hne : xs.isEmpty = false) (hall : xs.all isNum = true) :
    asarray (.arr xs) = .dispatch 1 (.arr xs) := by
  cases xs with
  | nil => simp [List.isEmpty] at hne
  | cons x rest =>
    have hx : isNum x = true := by
      simp [List.all_cons] at hall
      exact hall.1
    obtain ⟨n, rfl⟩ := isNum_exists hx
    rfl

/-- Witness for C1 at the spec's scenario input `[1, 2, 3]`. -/
theorem asarray_flat_dispatches_rank1_witness :
    asarray (.arr [.num 1, .num 2, .num 3]) =
      .dispatch 1 (.arr [.num 1, .num 2, .num 3]) :=
  asarray_flat_dispatches_rank1 [.num 1, .num 2, .num 3] rfl rfl

/-- C5: calling `asarray` on an empty top-level sequence `[]` raises an
indexing error during the shape probe (`[][0]` is `undefined`, and the
second probe `undefined[0]` throws a `TypeError`), and no rank constructor
is invoked. -/
theorem asarray_empty_throws : asarray (.arr []) = .throw .typeError := rfl

/-- C9: there are non-rank-5 inputs on which `asarray` invokes no
constructor and raises no error: on `["a"]` every probe yields a string
(`"a"[0]` is `"a"`), all four `typeof` checks fail without throwing, and
the function falls off the branch ladder, returning `undefined`. -/
theorem asarray_string_falls_through :
    asarray (.arr [.str ['a']]) = .noDispatch := rfl

/-- C10: `asarray` on a bare primitive number dispatches to no constructor
and throws a `TypeError` during probing: `(5)[0]` is `undefined` (not a
number), and the second probe `(5)[0][0]` indexes `undefined`. -/
theorem asarray_rank0_throws :
    getIndex0 (.num 5) = .ok .undef ∧ asarray (.num 5) = .throw .typeError :=
  ⟨rfl, rfl⟩

/-- C2: every well-formed 2-level nested sequence of numbers (non-empty at
each probed level) dispatches to the rank-2 constructor `asarray2d` with
the input unchanged; analogously 3-level nesting goes to `asarray3d` and
4-level nesting to `asarray4d`. -/
theorem asarray_nested_dispatch (v : JSVal) :
    (isNumSeq 2 v = true → asarray v = .dispatch 2 v) ∧
    (isNumSeq 3 v = true → asarray v = .dispatch 3 v) ∧
    (isNumSeq 4 v = true → asarray v = .dispatch 4 v) := by
  refine ⟨?_, ?_, ?_⟩
  · intro h
    obtain ⟨x1, xs1, rfl, h1⟩ := isNumSeq_succ_elim h
    obtain ⟨x2, xs2, rfl, h2⟩ := isNumSeq_succ_elim h1
    obtain ⟨n, rfl⟩ := isNum_exists h2
    rfl
  · intro h
    obtain ⟨x1, xs1, rfl, h1⟩ := isNumSeq_succ_elim h
    obtain ⟨x2, xs2, rfl, h2⟩ := isNumSeq_succ_elim h1
    obtain ⟨x3, xs3, rfl, h3⟩ := isNumSeq_succ_elim h2
    obtain ⟨n, rfl⟩ := isNum_exists h3
    rfl
  · intro h
    obtain ⟨x1, xs1, rfl, h1⟩ := isNumSeq_succ_elim h
    obtain ⟨x2, xs2, rfl, h2⟩ := isNumSeq_succ_elim h1
    obtain ⟨x3, xs3, rfl, h3⟩ := isNumSeq_succ_elim h2
    obtain ⟨x4, xs4, rfl, h4⟩ := isNumSeq_succ_elim h3
    obtain ⟨n, rfl⟩ := isNum_exists h4
    rfl

/-- Witness for C2 at the spec's scenario input `[[1, 2], [3, 4]]`. -/
theorem asarray_nested_dispatch_witness :
    asarray (.arr [.arr [.num 1, .num 2], .arr [.num 3, .num 4]]) =
      .dispatch 2 (.arr [.arr [.num 1, .num 2], .arr [.num 3, .num 4]]) :=
  (asarray_nested_dispatch (.arr [.arr [.num 1, .num 2], .arr [.num 3, .num 4]])).1 rfl

/-- C6: any input whose leftmost chain nests 5 levels or deeper before
reaching a primitive number (e.g. `[[[[[1]]]]]`) matches no branch: no
constructor is invoked, no diagnostic is raised, and the function falls
through with no defined result. -/
theorem asarray_rank5_plus_falls_through (d : Nat) (v : JSVal)
    (h : isNumSeq (d + 5) v = true) : asarray v = .noDispatch := by
  obtain ⟨x1, xs1, rfl, h1⟩ := isNumSeq_succ_elim h
  obtain ⟨x2, xs2, rfl, h2⟩ := isNumSeq_succ_elim h1
  obtain ⟨x3, xs3, rfl, h3⟩ := isNumSeq_succ_elim h2
  obtain ⟨x4, xs4, rfl, h4⟩ := isNumSeq_succ_elim h3
  obtain ⟨x5, xs5, rfl, h5⟩ := isNumSeq_succ_elim h4
  rfl

/-- Witness for C6 at the spec's rank-5 input `[[[[[1]]]]]`. -/
theorem asarray_rank5_plus_falls_through_witness :
    asarray (.arr [.arr [.arr [.arr [.arr [.num 1]]]]]) = .noDispatch :=
  asarray_rank5_plus_falls_through 0
    (.arr [.arr [.arr [.arr [.arr [.num 1]]]]]) rfl

/-- C8: the dispatcher is a pure read-only classification: the embedding is
a total function of the argument alone (no state, no mutation — the source
contains only `typeof` tests and index reads, both side-effect-free), and
whenever a constructor is invoked, the forwarded argument is the input
itself, unchanged. -/
theorem asarray_forwards_input_unchanged (data : JSVal) (r : Nat) (arg : JSVal)
    (h : asarray data = .dispatch r arg) : arg = data := by
  unfold asarray at h
  repeat' split at h
  all_goals
    first
      | exact AsarrayResult.noConfusion h
      | (injection h with hr ha; exact ha.symm)

/-- Witness for C8: at input `[1]` the dispatched argument is the input. -/
theorem asarray_forwards_input_unchanged_witness :
    JSVal.arr [JSVal.num 1] = JSVal.arr [JSVal.num 1] :=
  asarray_forwards_input_unchanged (.arr [.num 1]) 1 (.arr [.num 1]) rfl

/-- C3: `asarray` realises the spec's probe algorithm exactly: it probes
`data[0]`, `data[0][0]`, `data[0][0][0]`, `data[0][0][0][0]` in that fixed
order, selects the first level whose leftmost element is a primitive
number as the rank, invokes that rank's constructor with `data` as sole
argument and returns its result unchanged (probe errors propagating, and
no level matching giving no defined result): the source function equals
`specRankDispatch`, the definition written from the spec's words. -/
theorem asarray_eq_spec_probe (data : JSVal) :
    asarray data = specRankDispatch data := by
  have c1 : probeChain data 1 = getIndex0 data := rfl
  unfold asarray specRankDispatch
  rw [c1]
  cases h1 : getIndex0 data with
  | error e => rfl
  | ok d1 =>
    dsimp only
    by_cases t1 : typeofJS d1 = "number"
    · rw [if_pos t1, if_pos t1]
    · rw [if_neg t1, if_neg t1]
      have c2 : probeChain data 2 = getIndex0 d1 := by
        rw [probeChain_succ, c1, h1]
      rw [c2]
      cases h2 : getIndex0 d1 with
      | error e => rfl
      | ok d2 =>
        dsimp only
        by_cases t2 : typeofJS d2 = "number"
        · rw [if_pos t2, if_pos t2]
        · rw [if_neg t2, if_neg t2]
          have c3 : probeChain data 3 = getIndex0 d2 := by
            rw [probeChain_succ, c2, h2]
          rw [c3]
          cases h3 : getIndex0 d2 with
          | error e => rfl
          | ok d3 =>
            dsimp only
            by_cases t3 : typeofJS d3 = "number"
            · rw [if_pos t3, if_pos t3]
            · rw [if_neg t3, if_neg t3]
              have c4 : probeChain data 4 = getIndex0 d3 := by
                rw [probeChain_succ, c3, h3]
              rw [c4]

/-- C4: the dispatch rank depends only on the shape observed along the
leftmost-element chain (for each of the four probe depths: threw, yielded
a primitive number, or yielded something else), not on the numeric values
or on sibling elements beyond index 0: two inputs with identical probe
observations drive `asarray` to the same constructor (or both to none). -/
theorem asarray_rank_shape_only (a b : JSVal)
    (h1 : probeObs a 1 = probeObs b 1) (h2 : probeObs a 2 = probeObs b 2)
    (h3 : probeObs a 3 = probeObs b 3) (h4 : probeObs a 4 = probeObs b 4) :
    dispatchRank (asarray a) = dispatchRank (asarray b) := by
  rw [dispatchRank_asarray_eq_obs a, dispatchRank_asarray_eq_obs b, h1, h2, h3, h4]

/-- Witness for C4: `[[1, 2], [3, 4]]` and `[[9], 7]` differ in values and
in every sibling beyond index 0, yet share all four probe observations and
dispatch to the same (rank-2) constructor. -/
theorem asarray_rank_shape_only_witness :
    dispatchRank (asarray (.arr [.arr [.num 1, .num 2], .arr [.num 3, .num 4]])) =
      dispatchRank (asarray (.arr [.arr [.num 9], .num 7])) :=
  asarray_rank_shape_only
    (.arr [.arr [.num 1, .num 2], .arr [.num 3, .num 4]])
    (.arr [.arr [.num 9], .num 7]) rfl rfl rfl rfl

/-- C7 fails on the host semantics: indexing a primitive number does NOT
signal a type error (`(5)[0]` evaluates to `undefined`), and indexing an
empty sequence does NOT signal an out-of-bounds error (`[][0]` evaluates
to `undefined`). -/
theorem getIndex0_counterexample :
    getIndex0 (.num 5) = .ok .undef ∧ getIndex0 (.arr []) = .ok .undef ∧
    getIndex0 (.num 5) ≠ .error .typeError ∧
    getIndex0 (.arr []) ≠ .error .typeError :=
  ⟨rfl, rfl, fun h => Except.noConfusion h, fun h => Except.noConfusion h⟩

/-- C7 (amended): during probing, indexing a primitive number or an empty
sequence yields `undefined` without signalling; a `TypeError` is signalled
only when a probe indexes `undefined` (or `null`) — which is what happens
on the probe following an empty sequence, as in `asarray([[]])`. -/
theorem getIndex0_error_semantics :
    getIndex0 (.num 5) = .ok .undef ∧
    getIndex0 (.arr []) = .ok .undef ∧
    getIndex0 .undef = .error .typeError ∧
    getIndex0 .null = .error .typeError ∧
    asarray (.arr [.arr []]) = .throw .typeError :=
  ⟨rfl, rfl, rfl, rfl, rfl⟩

end NumrsGlue
